import Mathlib

/-!
Verification of the file-reader extraction engine (src/main.py) against its
specification.  The Python source is shallowly embedded: each relevant Python
function becomes a Lean definition over explicit inputs (file-system facts are
passed in as a `FileStat` record, optional third-party libraries as booleans,
nondeterministic values such as timestamps as parameters).  Python strings are
Lean `String`s; raw bytes are `List Nat`.
-/

/-- Boolean infix-of test on lists, used to embed the Python `in` operator on
strings and bytes (`'{\rtf' in header[:100]`, `'wordprocessingml' in mime`). -/
def isInfixB [BEq α] (sub : List α) : List α → Bool
  | [] => sub.isEmpty
  | a :: t => sub.isPrefixOf (a :: t) || isInfixB sub t

/-- Embedding of the Python substring test `sub in hay` for strings. -/
def strContainsSub (hay sub : String) : Bool := isInfixB sub.data hay.data

/-- Embedding of Python `str.lower()`, character by character. -/
def py_lower (s : String) : String := String.mk (s.data.map Char.toLower)

/-- Logical file-category tags, from the `FileCategory` enum of src/main.py. -/
inductive FileCategory
  | document | spreadsheet | presentation | code | markup | config | text | other
deriving DecidableEq

/-- Record type for one entry of the format registry, from the `FileTypeInfo`
dataclass of src/main.py.  Python sets become lists. -/
structure FileTypeInfo where
  extensions : List String
  category : FileCategory
  handler : String
  mime_types : List String := []
  requires : List String := []
  max_size : Option Nat := none
deriving DecidableEq

/-- The static format registry `FILE_TYPES_CONFIG` of src/main.py, in the
dictionary's insertion order. -/
def FILE_TYPES_CONFIG : List (String × FileTypeInfo) :=
  [ ("pdf",
     { extensions := [".pdf"]
       category := FileCategory.document
       handler := "read_pdf_to_text"
       mime_types := ["application/pdf"]
       requires := ["pdfminer"] }),
    ("docx",
     { extensions := [".docx", ".doc"]
       category := FileCategory.document
       handler := "read_docx_to_text"
       mime_types := ["application/vnd.openxmlformats-officedocument.wordprocessingml.document",
                      "application/msword"]
       requires := ["docx2txt", "python-docx"] }),
    ("excel",
     { extensions := [".xlsx", ".xls", ".xlsm", ".ods"]
       category := FileCategory.spreadsheet
       handler := "read_excel_to_text"
       mime_types := ["application/vnd.openxmlformats-officedocument.spreadsheetml.sheet",
                      "application/vnd.ms-excel"]
       requires := ["pandas"] }),
    ("csv",
     { extensions := [".csv"]
       category := FileCategory.spreadsheet
       handler := "read_csv_to_text"
       mime_types := ["text/csv"]
       requires := ["pandas"] }),
    ("pptx",
     { extensions := [".pptx", ".ppt", ".odp"]
       category := FileCategory.presentation
       handler := "read_pptx_to_text"
       mime_types := ["application/vnd.openxmlformats-officedocument.presentationml.presentation",
                      "application/vnd.ms-powerpoint"]
       requires := ["python-pptx"] }),
    ("text",
     { extensions := [".txt", ".log", ".md", ".markdown", ".json", ".xml", ".html", ".htm",
                      ".yaml", ".yml", ".ini", ".cfg", ".conf", ".properties", ".env",
                      ".py", ".java", ".cpp", ".c", ".h", ".hpp", ".cs", ".js", ".ts",
                      ".php", ".rb", ".go", ".rs", ".swift", ".kt", ".scala", ".sh",
                      ".bash", ".ps1", ".bat", ".cmd", ".vbs", ".sql", ".toml"]
       category := FileCategory.text
       handler := "read_text_file"
       mime_types := ["text/plain", "text/x-python", "application/json", "text/xml", "text/html"]
       max_size := some (10 * 1024 * 1024) }) ]

/-- The `EXTENSION_TO_TYPE` table of src/main.py: every extension of every
registry entry, lower-cased, mapped to the entry's type key. -/
def EXTENSION_TO_TYPE : List (String × String) :=
  (FILE_TYPES_CONFIG.map (fun p => p.2.extensions.map (fun e => (py_lower e, p.1)))).flatten

/-- Dictionary lookup in `EXTENSION_TO_TYPE` (no extension occurs twice, so
first-match lookup agrees with the Python dict). -/
def ext_to_type (ext : String) : Option String :=
  (EXTENSION_TO_TYPE.find? (fun p => p.1 == ext)).map (fun p => p.2)

/-- Per-type size ceiling: `FILE_TYPES_CONFIG.get(file_type).max_size`. -/
def file_type_max_size (t : String) : Option Nat :=
  match FILE_TYPES_CONFIG.find? (fun p => p.1 == t) with
  | some p => p.2.max_size
  | none => none

/-- Facts about one file-system path that the Python code observes:
existence, regular-file test, size in bytes, `Path.suffix`, the MIME string
returned by python-magic (`none` when the library is unavailable), the first
1024 bytes, and whether opening the file for reading succeeded. -/
structure FileStat where
  fsExists : Bool
  isFile : Bool
  size : Nat
  ext : String
  magicMime : Option String
  header : List Nat
  headerReadable : Bool
deriving DecidableEq

/-- Which of the three classification strategies produced a result.  The Python
function returns only the type string; this tag records the branch taken. -/
inductive DetectMethod
  | mime | extension | signature
deriving DecidableEq

/-- Bytes of the magic prefix `%PDF`. -/
def pdfMagic : List Nat := [37, 80, 68, 70]

/-- Bytes of the ZIP magic prefix `PK\x03\x04`. -/
def zipMagic : List Nat := [80, 75, 3, 4]

/-- Bytes of the RTF marker, brace backslash r t f. -/
def rtfMagic : List Nat := [123, 92, 114, 116, 102]

/-- Embedding of method 1 of `FileReader.detect_file_type`: look the MIME type
up in the registry, then special-case open-XML office MIME strings. -/
def mime_lookup (mime : String) : Option String :=
  match FILE_TYPES_CONFIG.find? (fun p => p.2.mime_types.contains mime) with
  | some p => some p.1
  | none =>
    if strContainsSub mime "vnd.openxmlformats-officedocument" then
      if strContainsSub mime "wordprocessingml" then some "docx"
      else if strContainsSub mime "spreadsheetml" then some "excel"
      else if strContainsSub mime "presentationml" then some "pptx"
      else none
    else none

/-- Embedding of method 3 of `FileReader.detect_file_type`: magic-number
sniffing over the first 1024 bytes.  A failed read falls through to `none`
(the Python `except Exception: pass`), `%PDF` yields pdf, the ZIP signature is
ambiguous and yields `none`, an RTF marker in the first 100 bytes yields
docx. -/
def sig_sniff (st : FileStat) : Option String :=
  if st.headerReadable then
    if pdfMagic.isPrefixOf st.header then some "pdf"
    else if zipMagic.isPrefixOf st.header then none
    else if isInfixB rtfMagic (st.header.take 100) then some "docx"
    else none
  else none

/-- Body of `FileReader.detect_file_type` (src/main.py lines 209-253), after
the existence check: MIME probe first (skipped when python-magic is absent),
then extension lookup, then signature sniffing; the result is paired with the
strategy that produced it. -/
def detect_file_type_body (st : FileStat) : Option (String × DetectMethod) :=
  let extStep :=
    match ext_to_type (py_lower st.ext) with
    | some t => some (t, DetectMethod.extension)
    | none =>
      match sig_sniff st with
      | some t => some (t, DetectMethod.signature)
      | none => none
  match st.magicMime with
  | some mime =>
    match mime_lookup mime with
    | some t => some (t, DetectMethod.mime)
    | none => extStep
  | none => extStep

/-- Embedding of `FileReader.detect_file_type` including its existence check,
which raises `FileNotFoundError` on a missing path. -/
def detect_file_type (st : FileStat) : Except String (Option (String × DetectMethod)) :=
  if st.fsExists then Except.ok (detect_file_type_body st)
  else Except.error "文件不存在"

/-- Error cases of `FileReader.validate_file`: missing path, non-regular file,
size ceiling exceeded, and unclassifiable format. -/
inductive VErr
  | notFound | notAFile | tooLarge | unsupported
deriving DecidableEq

/-- Embedding of `FileReader.validate_file` (src/main.py lines 279-308):
existence check, regular-file check, global size ceiling, classification,
then the per-type size ceiling; on success it returns the resolved type. -/
def validate_file (max_file_size : Nat) (st : FileStat) : Except VErr String :=
  if !st.fsExists then Except.error VErr.notFound
  else if !st.isFile then Except.error VErr.notAFile
  else if st.size > max_file_size then Except.error VErr.tooLarge
  else
    match detect_file_type_body st with
    | none => Except.error VErr.unsupported
    | some (t, _) =>
      match file_type_max_size t with
      | some m => if 0 < m ∧ st.size > m then Except.error VErr.tooLarge else Except.ok t
      | none => Except.ok t

/-- Embedding of the `lru_cache` wrapper on `detect_file_type`: an association
list keyed by the path argument alone.  A hit returns the stored result and
leaves the cache unchanged; a miss runs the detection body on the current file
contents and stores the result under the path. -/
def detect_file_type_cached (cache : List (String × Option String)) (path : String)
    (st : FileStat) : Option String × List (String × Option String) :=
  match (cache.find? (fun q => q.1 == path)).map (fun q => q.2) with
  | some r => (r, cache)
  | none =>
    let r := (detect_file_type_body st).map (fun p => p.1)
    (r, (path, r) :: cache)

/-- Sample file stat: a file named with extension `.txt` whose contents begin
with the `%PDF` magic prefix, with python-magic unavailable. -/
def stTxtPdf : FileStat :=
  { fsExists := true, isFile := true, size := 9, ext := ".txt",
    magicMime := none, header := [37, 80, 68, 70, 45, 49], headerReadable := true }

/-- Claim C1, counterexample: a file whose first bytes match `%PDF` but whose
extension is `.txt` classifies as text via the extension strategy, not as pdf
via the signature strategy — extension lookup runs before signature
sniffing. -/
theorem detect_pdf_header_txt_extension_not_signature :
    pdfMagic.isPrefixOf stTxtPdf.header = true ∧
    detect_file_type_body stTxtPdf = some ("text", DetectMethod.extension) ∧
    detect_file_type_body stTxtPdf ≠ some ("pdf", DetectMethod.signature) := by
  decide

/-- Claim C1, amended: signature sniffing is the last of the three
classification strategies.  A file whose first bytes match `%PDF` classifies
as the pdf type (whose registered category is Document) via the signature
method only when the MIME probe is unavailable and the extension is not
registered. -/
theorem detect_signature_last_pdf (st : FileStat)
    (h1 : st.magicMime = none)
    (h2 : ext_to_type (py_lower st.ext) = none)
    (h3 : pdfMagic.isPrefixOf st.header = true)
    (h4 : st.headerReadable = true) :
    detect_file_type_body st = some ("pdf", DetectMethod.signature) ∧
    (FILE_TYPES_CONFIG.find? (fun p => p.1 == "pdf")).map (fun p => p.2.category) =
      some FileCategory.document := by
  refine ⟨?_, by decide⟩
  simp [detect_file_type_body, h1, h2, sig_sniff, h4, h3]

/-- Witness for `detect_signature_last_pdf` at a concrete extensionless
`%PDF` file. -/
theorem detect_signature_last_pdf_w :
    detect_file_type_body
        { fsExists := true, isFile := true, size := 4, ext := "",
          magicMime := none, header := [37, 80, 68, 70], headerReadable := true } =
      some ("pdf", DetectMethod.signature) ∧
    (FILE_TYPES_CONFIG.find? (fun p => p.1 == "pdf")).map (fun p => p.2.category) =
      some FileCategory.document :=
  detect_signature_last_pdf _ rfl (by decide) (by decide) rfl

/-- Claim C4: a file exceeding the global size ceiling fails with the
too-large error before classification is consulted, for every possible
detection outcome, including files whose category would not resolve. -/
theorem validate_file_too_large_before_classification (max_file_size : Nat) (st : FileStat)
    (h1 : st.fsExists = true) (h2 : st.isFile = true) (h3 : st.size > max_file_size) :
    validate_file max_file_size st = Except.error VErr.tooLarge := by
  simp [validate_file, h1, h2, h3]

/-- Witness for `validate_file_too_large_before_classification` on a concrete
oversized file whose category does not resolve. -/
theorem validate_file_too_large_before_classification_w :
    validate_file 5
        { fsExists := true, isFile := true, size := 10, ext := "",
          magicMime := none, header := [104, 105], headerReadable := true } =
      Except.error VErr.tooLarge :=
  validate_file_too_large_before_classification 5 _ rfl rfl (by decide)

/-- Sample file stat for the cache scenario: an extensionless path whose
contents begin with `%PDF-1.`. -/
def stalePdf : FileStat :=
  { fsExists := true, isFile := true, size := 8, ext := "",
    magicMime := none, header := [37, 80, 68, 70, 45, 49, 46, 52], headerReadable := true }

/-- The same path after being overwritten with unrecognizable contents. -/
def staleNew : FileStat := { stalePdf with header := [104, 101, 108, 108, 111] }

/-- Claim C6: the `lru_cache` on `detect_file_type` is keyed by the path
argument alone, so classifying the same path again after its file has been
overwritten with different content returns the stale cached classification
(`pdf`) even though detection on the new content yields none. -/
theorem detect_file_type_cache_stale :
    stalePdf ≠ staleNew ∧
    (detect_file_type_body staleNew).map (fun p => p.1) = none ∧
    (detect_file_type_cached (detect_file_type_cached [] "f" stalePdf).2 "f" staleNew).1 =
      some "pdf" := by
  decide

/-- Sample file stat: an extensionless file with unrecognizable plain
contents. -/
def stNoExtPlain : FileStat :=
  { fsExists := true, isFile := true, size := 2, ext := "",
    magicMime := none, header := [104, 105], headerReadable := true }

/-- Claim C8, counterexample: the empty suffix is not a registered extension,
and an extensionless file with no recognizable signature classifies as
nothing (unsupported), not as text. -/
theorem no_extension_not_text :
    ext_to_type "" = none ∧ detect_file_type_body stNoExtPlain = none := by
  decide

/-- Claim C8, amended: the extension-fallback step has no mapping for the
empty suffix; a file whose name has no extension and whose contents match no
signature is left unclassified, which `validate_file` rejects as
unsupported. -/
theorem no_extension_unsupported (st : FileStat)
    (h1 : st.magicMime = none) (h2 : st.ext = "") (h3 : sig_sniff st = none) :
    detect_file_type_body st = none ∧ ext_to_type (py_lower st.ext) = none := by
  have he : ext_to_type (py_lower st.ext) = none := by rw [h2]; decide
  exact ⟨by simp [detect_file_type_body, h1, he, h3], he⟩

/-- Witness for `no_extension_unsupported` at a concrete extensionless file. -/
theorem no_extension_unsupported_w :
    detect_file_type_body stNoExtPlain = none ∧
    ext_to_type (py_lower stNoExtPlain.ext) = none :=
  no_extension_unsupported stNoExtPlain rfl rfl (by decide)

/-- Embedding of Python `len` on strings, counting code points. -/
def py_len (s : String) : Nat := s.data.length

/-- Embedding of the Python slice `s[:n]`. -/
def py_slice (s : String) (n : Nat) : String := String.mk (s.data.take n)

/-- Helper for the thousands-separator format: insert a comma after every
three characters of a least-significant-first digit list. -/
def commaRev : List Char → List Char
  | a :: b :: c :: d :: rest => a :: b :: c :: ',' :: commaRev (d :: rest)
  | l => l

/-- Embedding of the Python format `f"{n:,}"`: decimal digits grouped in
threes from the right with comma separators. -/
def comma_format (n : Nat) : String :=
  String.mk (commaRev (Nat.toDigits 10 n).reverse).reverse

/-- The truncation marker appended by `FileReader.read_file` (src/main.py line
547), stating the original content length. -/
def truncation_marker (total : Nat) : String :=
  "\n\n[内容截断，总长度: " ++ comma_format total ++ " 字符]"

/-- Line of `n` equals signs, the Python `"="*n`. -/
def eq_line (n : Nat) : String := String.mk (List.replicate n '=')

/-- The provenance footer built by `FileReader.read_file` (src/main.py lines
550-557); the timestamp is passed in as a parameter. -/
def file_info_block (name file_type : String) (size : Nat) (timestamp : String) : String :=
  "\n\n" ++ eq_line 60 ++ "\n文件名: " ++ name ++ "\n文件类型: " ++ file_type ++
  "\n文件大小: " ++ comma_format size ++ " 字节\n读取时间: " ++ timestamp ++ "\n" ++ eq_line 60

/-- Embedding of the output assembly of `FileReader.read_file` (src/main.py
lines 543-559): truncate the extracted content when `max_length` is truthy and
exceeded, appending the truncation marker, then append the provenance
footer. -/
def read_file_output (content : String) (max_length : Option Nat) (file_info : String) : String :=
  (match max_length with
   | none => content
   | some n =>
     if 0 < n ∧ n < py_len content then
       py_slice content n ++ truncation_marker (py_len content)
     else content) ++ file_info

/-- Claim C2, counterexample: for content of length at most the limit, the
returned text is not byte for byte the untruncated extraction — the provenance
footer is always appended. -/
theorem read_file_appends_info_counterexample :
    py_len "ab" ≤ 5 ∧
    read_file_output "ab" (some 5) (file_info_block "f.txt" "text" 2 "t") ≠ "ab" := by
  decide

/-- Claim C2, amended: with a positive limit `n`, when the extracted content
exceeds `n` characters the returned text is the first `n` characters (exactly
`n` long) plus the truncation marker stating the original length plus the
provenance footer; when the content is at most `n` characters the content
portion is passed through unmodified, with only the footer appended. -/
theorem read_file_truncation_law (content : String) (n : Nat) (info : String) (h : 0 < n) :
    (n < py_len content →
      read_file_output content (some n) info =
        py_slice content n ++ truncation_marker (py_len content) ++ info ∧
      py_len (py_slice content n) = n) ∧
    (py_len content ≤ n →
      read_file_output content (some n) info = content ++ info) := by
  constructor
  · intro h2
    constructor
    · simp only [read_file_output]
      rw [if_pos ⟨h, h2⟩]
    · simp only [py_len] at h2
      simp only [py_len, py_slice, List.length_take]
      omega
  · intro h2
    have hno : ¬(0 < n ∧ n < py_len content) := by omega
    simp only [read_file_output]
    rw [if_neg hno]

/-- Witness for `read_file_truncation_law` on concrete content both above and
below the limit. -/
theorem read_file_truncation_law_w :
    (3 < py_len "abcdef" →
      read_file_output "abcdef" (some 3) "I" =
        py_slice "abcdef" 3 ++ truncation_marker (py_len "abcdef") ++ "I" ∧
      py_len (py_slice "abcdef" 3) = 3) ∧
    (py_len "abcdef" ≤ 3 →
      read_file_output "abcdef" (some 3) "I" = "abcdef" ++ "I") :=
  read_file_truncation_law "abcdef" 3 "I" (by decide)

/-- The fallback encoding list used by `FileReader.read_text_file` when
chardet is unavailable. -/
def fallback_encodings : List String := ["utf-8", "gbk", "gb2312", "latin1", "cp1252"]

/-- Embedding of the candidate-list construction of `FileReader.read_text_file`
(src/main.py lines 312-332): start from the fixed fallback list only when
chardet is unavailable, insert the caller hint at the front, then insert the
chardet-detected encoding at the front when its confidence exceeds 0.7, and
finally append utf-8 unless already present. -/
def encodings_to_try (chardet_available : Bool) (encoding : Option String)
    (detected : Option (String × Rat)) : List String :=
  let base := if chardet_available then ([] : List String) else fallback_encodings
  let withHint :=
    match encoding with
    | some e => e :: base
    | none => base
  let withDet :=
    if chardet_available then
      match detected with
      | some de => if de.2 > 7 / 10 then de.1 :: withHint else withHint
      | none => withHint
    else withHint
  if withDet.contains "utf-8" then withDet else withDet ++ ["utf-8"]

/-- Candidate order as the amended specification describes it: the detected
encoding (confidence above 0.7, only when chardet is available) first, then
the caller hint, then the fixed fallback list only when chardet is
unavailable, then utf-8 if absent. -/
def candidates_spec (chardet_available : Bool) (encoding : Option String)
    (detected : Option (String × Rat)) : List String :=
  let detPart : List String :=
    if chardet_available then
      match detected with
      | some de => if de.2 > 7 / 10 then [de.1] else []
      | none => []
    else []
  let hintPart : List String :=
    match encoding with
    | some e => [e]
    | none => []
  let fb : List String := if chardet_available then [] else fallback_encodings
  let l := detPart ++ hintPart ++ fb
  if l.contains "utf-8" then l else l ++ ["utf-8"]

/-- Embedding of the decode loop of `FileReader.read_text_file` (src/main.py
lines 335-342): try each candidate in order, returning the first success;
the accumulator carries the most recent decode error. -/
def try_encodings (decode : String → Except String String) :
    Option String → List String → Except (Option String) String
  | le, [] => Except.error le
  | _, e :: rest =>
    match decode e with
    | Except.ok t => Except.ok t
    | Except.error m => try_encodings decode (some m) rest

/-- Embedding of `FileReader.read_text_file`: build the candidate list, try
each in order, and on exhaustion fail carrying the attempted list and the last
underlying error (src/main.py lines 344-347). -/
def read_text_file (chardet_available : Bool) (encoding : Option String)
    (detected : Option (String × Rat)) (decode : String → Except String String) :
    Except (List String × Option String) String :=
  let cands := encodings_to_try chardet_available encoding detected
  match try_encodings decode none cands with
  | Except.ok t => Except.ok t
  | Except.error le => Except.error (cands, le)

/-- Result of the first candidate that decodes successfully, if any. -/
def first_ok (decode : String → Except String String) : List String → Option String
  | [] => none
  | e :: rest =>
    match decode e with
    | Except.ok t => some t
    | Except.error _ => first_ok decode rest

/-- Error message of a decode outcome, if it failed. -/
def err_msg : Except String String → Option String
  | Except.error m => some m
  | Except.ok _ => none

/-- Shifting the head off a two-or-more element list leaves the last element
unchanged. -/
theorem getLast?_cons_cons_eq (a b : α) (l : List α) :
    (a :: b :: l).getLast? = (b :: l).getLast? := rfl

/-- A nonempty list has a last element, and it is a member. -/
theorem getLast?_mem_of_ne_nil : ∀ (l : List α), l ≠ [] → ∃ x, l.getLast? = some x ∧ x ∈ l
  | [], h => absurd rfl h
  | [a], _ => ⟨a, rfl, List.mem_singleton.mpr rfl⟩
  | a :: b :: t, _ => by
    obtain ⟨x, hx, hm⟩ := getLast?_mem_of_ne_nil (b :: t) (by simp)
    exact ⟨x, by rw [getLast?_cons_cons_eq]; exact hx, List.mem_cons_of_mem a hm⟩

/-- When the first successful candidate exists, the decode loop returns its
text, for any error accumulator. -/
theorem try_encodings_first_ok (decode : String → Except String String) :
    ∀ (l : List String) (le : Option String) (t : String),
      first_ok decode l = some t → try_encodings decode le l = Except.ok t := by
  intro l
  induction l with
  | nil => intro le t h; simp [first_ok] at h
  | cons e rest ih =>
    intro le t h
    simp only [first_ok] at h
    simp only [try_encodings]
    cases hd : decode e with
    | ok u => rw [hd] at h; simp at h; simp [h]
    | error m => rw [hd] at h; simp at h; exact ih (some m) t h

/-- When every candidate fails, the decode loop fails carrying the error of
the last candidate (or the initial accumulator for an empty list). -/
theorem try_encodings_all_fail (decode : String → Except String String) :
    ∀ (l : List String) (le : Option String),
      (∀ e ∈ l, (decode e).isOk = false) →
      try_encodings decode le l =
        Except.error ((l.getLast?.map (fun x => err_msg (decode x))).getD le) := by
  intro l
  induction l with
  | nil => intro le _; rfl
  | cons e rest ih =>
    intro le h
    have he : (decode e).isOk = false := h e (List.mem_cons_self e rest)
    cases hd : decode e with
    | ok u => rw [hd] at he; simp [Except.isOk, Except.toBool] at he
    | error m =>
      simp only [try_encodings, hd]
      rw [ih (some m) (fun x hx => h x (List.mem_cons_of_mem e hx))]
      cases rest with
      | nil => simp [err_msg, hd]
      | cons b t =>
        rw [getLast?_cons_cons_eq]
        obtain ⟨x, hx, -⟩ := getLast?_mem_of_ne_nil (b :: t) (by simp)
        rw [hx]
        simp

/-- Appending utf-8 when absent always leaves utf-8 a member. -/
theorem mem_utf8_ensure (l : List String) :
    "utf-8" ∈ (if l.contains "utf-8" then l else l ++ ["utf-8"]) := by
  by_cases hc : l.contains "utf-8" = true
  · rw [if_pos hc]; exact List.elem_iff.mp hc
  · rw [if_neg hc]; exact List.mem_append.mpr (Or.inr (List.mem_singleton.mpr rfl))

/-- The tail normalization step depends only on the list it is given. -/
theorem ensure_utf8_congr (l1 l2 : List String) (h : l1 = l2) :
    (if l1.contains "utf-8" then l1 else l1 ++ ["utf-8"]) =
      (if l2.contains "utf-8" then l2 else l2 ++ ["utf-8"]) := by rw [h]

/-- The candidate list always contains utf-8. -/
theorem encodings_to_try_has_utf8 (ca : Bool) (hint : Option String)
    (det : Option (String × Rat)) : "utf-8" ∈ encodings_to_try ca hint det := by
  simp only [encodings_to_try]
  exact mem_utf8_ensure _

/-- Claim C3, counterexample: with chardet available, a caller hint and a
detection at confidence 0.9, the detected encoding is tried before the hint
(the hint is not first), and the fixed fallback list is absent — gb2312 is
never attempted. -/
theorem encodings_detected_precedes_hint :
    encodings_to_try true (some "latin1") (some ("gbk", 9 / 10)) =
      ["gbk", "latin1", "utf-8"] ∧
    List.head? (encodings_to_try true (some "latin1") (some ("gbk", 9 / 10))) ≠
      some "latin1" ∧
    "gb2312" ∉ encodings_to_try true (some "latin1") (some ("gbk", 9 / 10)) := by
  have hconf : ((9 : Rat) / 10 > 7 / 10) := by norm_num
  have h : encodings_to_try true (some "latin1") (some ("gbk", 9 / 10)) =
      ["gbk", "latin1", "utf-8"] := by
    simp [encodings_to_try, hconf]
  refine ⟨h, ?_, ?_⟩
  · rw [h]; decide
  · rw [h]; decide

/-- Claim C3, amended: the candidate list places a confident chardet detection
first, then the caller hint, then the fixed fallback list only when chardet is
unavailable, then utf-8 unless already present; decoding returns the first
candidate that succeeds, and when every candidate fails the error carries the
full attempted list and the last underlying decode error. -/
theorem read_text_file_candidate_order (ca : Bool) (hint : Option String)
    (det : Option (String × Rat)) (decode : String → Except String String) :
    encodings_to_try ca hint det = candidates_spec ca hint det ∧
    (∀ t, first_ok decode (encodings_to_try ca hint det) = some t →
      read_text_file ca hint det decode = Except.ok t) ∧
    ((∀ e ∈ encodings_to_try ca hint det, (decode e).isOk = false) →
      ∃ m x, (encodings_to_try ca hint det).getLast? = some x ∧
        decode x = Except.error m ∧
        read_text_file ca hint det decode =
          Except.error (encodings_to_try ca hint det, some m)) := by
  refine ⟨?_, ?_, ?_⟩
  · rcases det with _ | ⟨e, c⟩ <;> cases ca <;> cases hint <;>
      simp only [encodings_to_try, candidates_spec] <;>
      apply ensure_utf8_congr <;> (try split_ifs) <;> simp
  · intro t h
    simp only [read_text_file]
    rw [try_encodings_first_ok decode _ none t h]
  · intro h
    have hne : encodings_to_try ca hint det ≠ [] := by
      intro hnil
      have := encodings_to_try_has_utf8 ca hint det
      rw [hnil] at this
      exact absurd this (List.not_mem_nil "utf-8")
    obtain ⟨x, hx, hxm⟩ := getLast?_mem_of_ne_nil _ hne
    have hfx : (decode x).isOk = false := h x hxm
    cases hd : decode x with
    | ok u => rw [hd] at hfx; simp [Except.isOk, Except.toBool] at hfx
    | error m =>
      refine ⟨m, x, hx, hd, ?_⟩
      simp only [read_text_file]
      rw [try_encodings_all_fail decode _ none h, hx]
      simp [err_msg, hd]

/-- Witness for `read_text_file_candidate_order`: chardet unavailable, no
hint, and a decoder that always fails yields the fallback list as attempted
candidates and the last error. -/
theorem read_text_file_candidate_order_w :
    read_text_file false none none (fun _ => Except.error "bad") =
      Except.error (["utf-8", "gbk", "gb2312", "latin1", "cp1252"], some "bad") := by
  obtain ⟨-, -, h3⟩ :=
    read_text_file_candidate_order false none none (fun _ => Except.error "bad")
  obtain ⟨m, x, -, hdx, hres⟩ := h3 (by decide)
  have hm : "bad" = m := Except.error.inj hdx
  have hc : encodings_to_try false none none =
      ["utf-8", "gbk", "gb2312", "latin1", "cp1252"] := by decide
  rw [hc, ← hm] at hres
  exact hres

/-- On-disk and tracked temporary files of one `FileReader` instance: `disk`
models which artifact names exist on the file system, `tracked` models the
`_temp_files` list. -/
structure TmpState where
  disk : List Nat
  tracked : List Nat
deriving DecidableEq

/-- Embedding of `FileReader.cleanup_temp_files` (src/main.py lines 184-192):
unlink every tracked file that exists, then clear the tracking list. -/
def cleanup_temp_files (s : TmpState) : TmpState :=
  { disk := s.disk.filter (fun f => !(s.tracked.contains f)), tracked := [] }

/-- Embedding of `tempfile.NamedTemporaryFile(delete=False)` plus the
`_temp_files.append` of src/main.py lines 386-388: the fresh artifact appears
on disk and is tracked. -/
def create_temp (fresh : Nat) (s : TmpState) : TmpState :=
  { disk := fresh :: s.disk, tracked := fresh :: s.tracked }

/-- Embedding of the unlink-and-untrack step of src/main.py lines 396-402. -/
def unlink_temp (f : Nat) (s : TmpState) : TmpState :=
  { disk := s.disk.filter (fun x => !(x == f)),
    tracked := s.tracked.filter (fun x => !(x == f)) }

/-- Embedding of the temporary-file behaviour of `FileReader.read_docx_to_text`
(src/main.py lines 376-409): on the `.doc` path a fresh artifact is created and
tracked, a failed conversion or read raises with the artifact still on disk,
and a successful read unlinks it before returning. -/
def read_docx_to_text_tmp (is_doc convert_ok process_ok : Bool) (fresh : Nat)
    (text : String) (s : TmpState) : Except String String × TmpState :=
  if is_doc then
    let s1 := create_temp fresh s
    if !convert_ok then (Except.error "转换DOC到DOCX失败", s1)
    else if !process_ok then (Except.error "读取Word文件失败", s1)
    else (Except.ok text, unlink_temp fresh s1)
  else
    if !process_ok then (Except.error "读取Word文件失败", s)
    else (Except.ok text, s)

/-- Embedding of `FileReader.read_file` restricted to its temporary-file
effects on the Word path (src/main.py lines 519 and 567-569): cleanup on
entry, run the extractor, cleanup again in the `finally` block. -/
def read_file_docx (is_doc convert_ok process_ok : Bool) (fresh : Nat)
    (text : String) (s0 : TmpState) : Except String String × TmpState :=
  let s1 := cleanup_temp_files s0
  let r := read_docx_to_text_tmp is_doc convert_ok process_ok fresh text s1
  (r.1, cleanup_temp_files r.2)

/-- Claim C5: on every path of a call that triggers the DOC-to-DOCX conversion
helper — conversion failure, read failure, or success — the call's fresh
artifact is gone from disk when the call returns, the tracking list is empty,
no new artifact remains compared to the initial disk, and mid-call at most the
single fresh artifact is ever added. -/
theorem docx_conversion_cleanup_invariant (convert_ok process_ok : Bool) (fresh : Nat)
    (text : String) (s0 : TmpState) :
    fresh ∉ (read_file_docx true convert_ok process_ok fresh text s0).2.disk ∧
    (read_file_docx true convert_ok process_ok fresh text s0).2.tracked = [] ∧
    (∀ x ∈ (read_file_docx true convert_ok process_ok fresh text s0).2.disk, x ∈ s0.disk) ∧
    (∀ x ∈ (read_docx_to_text_tmp true convert_ok process_ok fresh text
        (cleanup_temp_files s0)).2.disk, x ∈ s0.disk ∨ x = fresh) := by
  cases convert_ok <;> cases process_ok <;>
    simp [read_file_docx, read_docx_to_text_tmp, cleanup_temp_files, create_temp,
      unlink_temp, List.mem_filter] <;>
    constructor <;> intro x hx <;> simp_all

/-- Witness for `docx_conversion_cleanup_invariant` at a concrete failing
conversion over a nonempty initial state. -/
theorem docx_conversion_cleanup_invariant_w :
    7 ∉ (read_file_docx true false false 7 "t" ⟨[1, 2], [2]⟩).2.disk ∧
    (read_file_docx true false false 7 "t" ⟨[1, 2], [2]⟩).2.tracked = [] ∧
    (∀ x ∈ (read_file_docx true false false 7 "t" ⟨[1, 2], [2]⟩).2.disk,
      x ∈ (⟨[1, 2], [2]⟩ : TmpState).disk) ∧
    (∀ x ∈ (read_docx_to_text_tmp true false false 7 "t"
        (cleanup_temp_files ⟨[1, 2], [2]⟩)).2.disk,
      x ∈ (⟨[1, 2], [2]⟩ : TmpState).disk ∨ x = 7) :=
  docx_conversion_cleanup_invariant false false 7 "t" ⟨[1, 2], [2]⟩

/-- Outcome of reading one worksheet: a rendered data frame, an empty data
frame, or a raised per-sheet exception. -/
inductive SheetRead
  | readOk (t : String)
  | readEmpty
  | readFail (err : String)
deriving DecidableEq

/-- The line appended for one worksheet by `FileReader.read_excel_to_text`
(src/main.py lines 421-436): the empty-sheet placeholder, the rendered frame,
or the inline failure placeholder. -/
def sheet_block (name : String) (r : SheetRead) : String :=
  match r with
  | SheetRead.readEmpty => "工作表: " ++ name ++ " (空)"
  | SheetRead.readOk t => "工作表: " ++ name ++ "\n" ++ t
  | SheetRead.readFail e => "工作表: " ++ name ++ " (读取失败: " ++ e ++ ")"

/-- Embedding of Python `sep.join(parts)`. -/
def py_join (sep : String) : List String → String
  | [] => ""
  | [x] => x
  | x :: xs => x ++ sep ++ py_join sep xs

/-- Embedding of `FileReader.read_excel_to_text` (src/main.py lines 411-441):
a workbook that fails to open raises, otherwise every sheet contributes one
block and the blocks are joined after a separator line. -/
def read_excel_to_text (open_ok : Bool) (sheets : List (String × SheetRead)) :
    Except String String :=
  if open_ok then
    Except.ok ("\n\n" ++ eq_line 50 ++
      py_join "\n\n" (sheets.map (fun p => sheet_block p.1 p.2)))
  else Except.error "读取Excel文件失败"

/-- Whether a sheet read raised. -/
def is_fail : SheetRead → Bool
  | SheetRead.readFail _ => true
  | _ => false

/-- String append acts as list append on the underlying character data. -/
theorem str_data_append (a b : String) : (a ++ b).data = a.data ++ b.data := rfl

/-- Every member of a joined list occurs inside the join. -/
theorem mem_py_join_within (sep : String) :
    ∀ (l : List String) (a : String), a ∈ l →
      List.IsInfix a.data (py_join sep l).data := by
  intro l
  induction l with
  | nil => intro a ha; exact absurd ha (List.not_mem_nil a)
  | cons x xs ih =>
    intro a ha
    cases xs with
    | nil =>
      have hax : a = x := by
        rcases List.mem_cons.mp ha with h | h
        · exact h
        · exact absurd h (List.not_mem_nil a)
      rw [hax]
      exact List.infix_refl _
    | cons y t =>
      rcases List.mem_cons.mp ha with h | h
      · refine ⟨[], (sep ++ py_join sep (y :: t)).data, ?_⟩
        rw [h]
        simp [py_join, str_data_append, List.append_assoc]
      · obtain ⟨s, t2, ht⟩ := ih a h
        refine ⟨(x ++ sep).data ++ s, t2, ?_⟩
        have hstep : py_join sep (x :: y :: t) = (x ++ sep) ++ py_join sep (y :: t) := by
          simp [py_join]
        rw [hstep]
        simp only [str_data_append, List.append_assoc, ← ht]

/-- Claim C7: a workbook that opens successfully yields an overall success
even when some sheet fails to read; the output contains the block of every
sheet — rendered content for readable sheets — and each failed sheet's block
is the inline failure placeholder line. -/
theorem read_excel_partial_failure_tolerance (sheets : List (String × SheetRead))
    (h : ∃ p ∈ sheets, is_fail p.2 = true) :
    ∃ t, read_excel_to_text true sheets = Except.ok t ∧
      (∀ p ∈ sheets, List.IsInfix (sheet_block p.1 p.2).data t.data) ∧
      ∃ p ∈ sheets, is_fail p.2 = true ∧
        ∃ e, sheet_block p.1 p.2 = "工作表: " ++ p.1 ++ " (读取失败: " ++ e ++ ")" := by
  refine ⟨_, rfl, ?_, ?_⟩
  · intro p hp
    have hmem : sheet_block p.1 p.2 ∈ sheets.map (fun q => sheet_block q.1 q.2) :=
      List.mem_map_of_mem _ hp
    obtain ⟨s, t2, ht⟩ := mem_py_join_within "\n\n" _ _ hmem
    refine ⟨("\n\n" ++ eq_line 50).data ++ s, t2, ?_⟩
    simp only [str_data_append, List.append_assoc, ← ht]
  · obtain ⟨p, hp, hf⟩ := h
    refine ⟨p, hp, hf, ?_⟩
    cases hps : p.2 with
    | readOk t => rw [hps] at hf; simp [is_fail] at hf
    | readEmpty => rw [hps] at hf; simp [is_fail] at hf
    | readFail e => exact ⟨e, rfl⟩

/-- Witness for `read_excel_partial_failure_tolerance` at the three-sheet
scenario with a corrupted middle sheet. -/
theorem read_excel_partial_failure_tolerance_w :
    ∃ t, read_excel_to_text true
        [("Sheet1", SheetRead.readOk "a"), ("Sheet2", SheetRead.readFail "boom"),
         ("Sheet3", SheetRead.readOk "c")] = Except.ok t ∧
      (∀ p ∈ [("Sheet1", SheetRead.readOk "a"), ("Sheet2", SheetRead.readFail "boom"),
         ("Sheet3", SheetRead.readOk "c")],
        List.IsInfix (sheet_block p.1 p.2).data t.data) ∧
      ∃ p ∈ [("Sheet1", SheetRead.readOk "a"), ("Sheet2", SheetRead.readFail "boom"),
         ("Sheet3", SheetRead.readOk "c")], is_fail p.2 = true ∧
        ∃ e, sheet_block p.1 p.2 = "工作表: " ++ p.1 ++ " (读取失败: " ++ e ++ ")" :=
  read_excel_partial_failure_tolerance _ (by decide)

/-- Characters Python `str.strip()` removes (ASCII whitespace). -/
def is_py_space (c : Char) : Bool :=
  c == ' ' || c == '\t' || c == '\n' || c == '\r' || c == '\x0b' || c == '\x0c'

/-- Embedding of Python `str.strip()`: drop leading and trailing whitespace. -/
def py_strip (s : String) : String :=
  String.mk (((s.data.dropWhile is_py_space).reverse.dropWhile is_py_space).reverse)

/-- A shape on a slide as `read_pptx_to_text` observes it: a shape with a
`text` attribute, a shape with a `text_frame` of paragraphs, or neither. -/
inductive PShape
  | textShape (t : String)
  | frameShape (ps : List String)
  | otherShape
deriving DecidableEq

/-- Texts contributed by one shape (src/main.py lines 487-497): a truthy
`text` attribute is stripped and kept when nonempty; otherwise each paragraph
of the text frame is stripped and kept when nonempty. -/
def shape_texts (sh : PShape) : List String :=
  match sh with
  | PShape.textShape t =>
    if t ≠ "" then (if py_strip t ≠ "" then [py_strip t] else []) else []
  | PShape.frameShape ps =>
    ps.foldr (fun p acc => if py_strip p ≠ "" then py_strip p :: acc else acc) []
  | PShape.otherShape => []

/-- All texts gathered from the shapes of one slide, in shape order. -/
def slide_texts (shapes : List PShape) : List String :=
  (shapes.map shape_texts).flatten

/-- Embedding of the slide loop of `FileReader.read_pptx_to_text` (src/main.py
lines 484-500): slides are numbered from `i`, and a slide is appended — with
its 1-based label — only when it contributed at least one text. -/
def slides_content_aux (i : Nat) : List (List PShape) → List String
  | [] => []
  | s :: rest =>
    let ts := slide_texts s
    if ts.isEmpty then slides_content_aux (i + 1) rest
    else ("幻灯片 " ++ toString i ++ ":\n" ++ py_join "\n" ts) :: slides_content_aux (i + 1) rest

/-- Embedding of `FileReader.read_pptx_to_text` (src/main.py lines 475-502). -/
def read_pptx_to_text (slides : List (List PShape)) : String :=
  "\n\n" ++ eq_line 50 ++ py_join "\n\n" (slides_content_aux 1 slides)

/-- Pairing of each element with its position counted from `i`, the Python
`enumerate(xs, i)`. -/
def enum_from (i : Nat) : List α → List (Nat × α)
  | [] => []
  | a :: rest => (i, a) :: enum_from (i + 1) rest

/-- Claim C9: the rendered slide list equals the filter-map that keeps exactly
the slides with at least one nonempty text-bearing shape, each labeled with
its 1-based index in the full deck; in particular a single-slide deck whose
only shape is a whitespace text box renders zero slides. -/
theorem read_pptx_omits_empty_slides :
    (∀ (slides : List (List PShape)) (i : Nat),
      slides_content_aux i slides =
        (enum_from i slides).filterMap (fun p =>
          if (slide_texts p.2).isEmpty then none
          else some ("幻灯片 " ++ toString p.1 ++ ":\n" ++ py_join "\n" (slide_texts p.2)))) ∧
    slides_content_aux 1 [[PShape.textShape " "]] = [] ∧
    read_pptx_to_text [[PShape.textShape " "]] = "\n\n" ++ eq_line 50 := by
  have main : ∀ (slides : List (List PShape)) (i : Nat),
      slides_content_aux i slides =
        (enum_from i slides).filterMap (fun p =>
          if (slide_texts p.2).isEmpty then none
          else some ("幻灯片 " ++ toString p.1 ++ ":\n" ++ py_join "\n" (slide_texts p.2))) := by
    intro slides
    induction slides with
    | nil => intro i; rfl
    | cons s rest ih =>
      intro i
      by_cases hts : slide_texts s = []
      · simp [slides_content_aux, enum_from, List.filterMap_cons, hts, ih]
      · simp [slides_content_aux, enum_from, List.filterMap_cons, hts, ih]
  refine ⟨main, by decide, ?_⟩
  have h1 : slides_content_aux 1 [[PShape.textShape " "]] = [] := by decide
  simp [read_pptx_to_text, h1, py_join]

/-- The possible failure kinds escaping `FileReader.read_file`: the
`FileReaderError` family (every known error plus wrapped unknown errors), and
any other exception type. -/
inductive PyFailure
  | file_reader_error (msg : String)
  | other_error (msg : String)
deriving DecidableEq

/-- Embedding of `FileReader.read_file` (src/main.py lines 507-569) as one
outcome: validation, dependency check, the dispatched handler's result, then
truncation and the provenance footer.  Every failure surfaces as a
`FileReaderError` because the final `except Exception` clause re-wraps unknown
errors. -/
def read_file_full (max_file_size : Nat) (st : FileStat) (name timestamp : String)
    (deps_ok : Bool) (handler_result : Except String String) (max_length : Option Nat) :
    Except PyFailure String :=
  match validate_file max_file_size st with
  | Except.error VErr.notFound => Except.error (PyFailure.file_reader_error "文件不存在")
  | Except.error VErr.notAFile => Except.error (PyFailure.file_reader_error "不是文件")
  | Except.error VErr.tooLarge => Except.error (PyFailure.file_reader_error "文件过大")
  | Except.error VErr.unsupported => Except.error (PyFailure.file_reader_error "不支持的文件格式")
  | Except.ok file_type =>
    if !deps_ok then Except.error (PyFailure.file_reader_error "缺少依赖")
    else
      match handler_result with
      | Except.error m => Except.error (PyFailure.file_reader_error m)
      | Except.ok content =>
        Except.ok (read_file_output content max_length
          (file_info_block name file_type st.size timestamp))

/-- Embedding of `read_any_file_to_text` (src/main.py lines 575-582) over the
outcome of `read_file`: a success passes through, a `FileReaderError` becomes
one message string, any other exception becomes the other. -/
def read_any_file_to_text (r : Except PyFailure String) : String :=
  match r with
  | Except.ok t => t
  | Except.error (PyFailure.file_reader_error m) => "读取文件失败: " ++ m
  | Except.error (PyFailure.other_error m) => "读取文件时发生错误: " ++ m

/-- Claim C10: for every input the compatibility entry point returns a string
and never propagates a failure — either the extraction succeeded and its text
is returned, or the failure is converted to one of the two error-message
strings. -/
theorem read_any_file_total (max_file_size : Nat) (st : FileStat) (name timestamp : String)
    (deps_ok : Bool) (handler_result : Except String String) (max_length : Option Nat) :
    (∃ t, read_file_full max_file_size st name timestamp deps_ok handler_result max_length =
        Except.ok t ∧
      read_any_file_to_text
        (read_file_full max_file_size st name timestamp deps_ok handler_result max_length) = t) ∨
    (∃ m, read_file_full max_file_size st name timestamp deps_ok handler_result max_length =
        Except.error (PyFailure.file_reader_error m) ∧
      read_any_file_to_text
        (read_file_full max_file_size st name timestamp deps_ok handler_result max_length) =
        "读取文件失败: " ++ m) ∨
    (∃ m, read_file_full max_file_size st name timestamp deps_ok handler_result max_length =
        Except.error (PyFailure.other_error m) ∧
      read_any_file_to_text
        (read_file_full max_file_size st name timestamp deps_ok handler_result max_length) =
        "读取文件时发生错误: " ++ m) := by
  cases hr : read_file_full max_file_size st name timestamp deps_ok handler_result max_length with
  | ok t => exact Or.inl ⟨t, rfl, rfl⟩
  | error e =>
    cases e with
    | file_reader_error m => exact Or.inr (Or.inl ⟨m, rfl, rfl⟩)
    | other_error m => exact Or.inr (Or.inr ⟨m, rfl, rfl⟩)
